import Mathlib

/-! Shallow embedding of the multi-provider image-generation orchestrator of the
webhook-server repository (source file `src/utils/image_generator.py`, the
dedicated module holding the current revision of this logic; `src/webhook.py`
contains an older inline duplicate).

Modelling conventions:
* Python module-level globals (`segmind_calls`, `segmind_failures`,
  `getimg_calls`, `getimg_failures`, `last_segmind_rate_limit_time`,
  `last_getimg_rate_limit_time`) become the explicit state `GState`,
  threaded through every call.
* `time.time()` becomes a `now : Nat` parameter (seconds); Python float
  subtraction `time.time() - last` compared with the cooldown window is
  mirrored by truncated `Nat` subtraction, which agrees on the guard outcome.
* Python truthiness is modelled faithfully: `if last_rate_limit_time:` is
  false for `None` and for the number `0`; `if not api_key:` is true for
  `None` and for the empty string; `if not url:` likewise.
* The HTTP layer is an oracle supplied by the caller: each possible provider
  response (any status, JSON-decode failure, malformed structure) or a raised
  transport exception is one constructor.  Fallible Python operations become
  `Except Unit` values.
* Every function additionally returns the list of I/O `Event`s it performed,
  so that "no HTTP request was issued" is a statement about the event trace.
-/

namespace ImageGenerator

def SEGMIND_COOLDOWN_SECONDS : Nat := 3600
def GETIMG_COOLDOWN_SECONDS : Nat := 1800

/-- The Python module-level mutable globals of `utils/image_generator.py`. -/
structure GState where
  segmind_calls : Nat := 0
  segmind_failures : Nat := 0
  getimg_calls : Nat := 0
  getimg_failures : Nat := 0
  last_segmind_rate_limit_time : Option Nat := none
  last_getimg_rate_limit_time : Option Nat := none
deriving DecidableEq, Repr

/-- Python truthiness of an optional numeric timestamp:
`None` and `0` are falsy. -/
def truthyTime : Option Nat → Bool
  | none => false
  | some t => t != 0

/-- Python truthiness of an optional string: `None` and `""` are falsy. -/
def truthyStr : Option String → Bool
  | none => false
  | some s => s != ""

/-- A Python value passed as a weight argument: absent (`None`), a numeric
value (a float or a string that `float` accepts), or a string on which
`float` raises `ValueError`. -/
inductive PyWeight where
  | none
  | num (q : ℚ)
  | badstr
deriving DecidableEq

/-- Python `float(w or 0)`: `None` coerces to `0`, a numeric value to itself,
a non-numeric string raises. -/
def pyFloat : PyWeight → Except Unit ℚ
  | .none => .ok 0
  | .num q => .ok q
  | .badstr => .error ()

/-- Python `abs` on a float, as a rational. -/
def pyAbs (q : ℚ) : ℚ := if q < 0 then -q else q

/-- Python `str.lower()` (ASCII, as used on the gender values). -/
def pyLower (s : String) : String := String.mk (s.data.map Char.toLower)

/-- The local `weight_diff` of `build_prompt`:
`float(desired_weight or 0) - float(current_weight or 0)`, with the whole
`try` block falling back to `0` if either coercion raises. -/
def weight_diff (current_weight desired_weight : PyWeight) : ℚ :=
  match pyFloat desired_weight, pyFloat current_weight with
  | .ok d, .ok c => d - c
  | _, _ => 0

/-- The local `body_prompt` of `build_prompt` (lines 24-29), as a function
of the already-computed `weight_diff`. -/
def body_prompt_of (wd : ℚ) : String :=
  if pyAbs wd < 2 then "similar body type"
  else if wd < 0 then "slimmer, toned, healthy appearance"
  else "stronger, athletic build"

/-- The local `gender_prompt` of `build_prompt` (lines 31-37):
`if gender:` is falsy for `None` and `""`. -/
def gender_prompt_of : Option String → String
  | Option.none => "realistic human body appearance"
  | some g =>
    if g = "" then "realistic human body appearance"
    else
      let gl := pyLower g
      if gl = "male" ∨ gl = "man" then
        "masculine features, realistic male fitness aesthetic"
      else if gl = "female" ∨ gl = "woman" then
        "feminine features, realistic female fitness aesthetic"
      else "realistic human body appearance"

/-- Embedding of `build_prompt` from `utils/image_generator.py` (lines 17-43). -/
def build_prompt (base_prompt : String) (gender : Option String)
    (current_weight desired_weight : PyWeight) : String :=
  base_prompt ++ ", " ++ body_prompt_of (weight_diff current_weight desired_weight) ++
    ", " ++ gender_prompt_of gender ++
    ", photorealistic, preserve face, close resemblance to original photo"

/-- The JSON value found under `"output"` in a 200 response from the
face-enhancement provider: absent/null, a single string, or a list. -/
inductive OutputVal where
  | null
  | str (s : String)
  | list (l : List String)

/-- Behaviour of the single HTTP POST of `call_segmind`: either
`requests.post` raises, or it returns a response with a status code, a
Content-Type that does or does not mention `application/json`, and a body
whose JSON decoding either raises `ValueError` or yields an `"output"`
value. -/
inductive SegmindHttp where
  | exn
  | resp (status : Nat) (ctJson : Bool) (body : Except Unit OutputVal)

/-- Result of `data["data"][0]["url"]` on a decoded 200 body from the
body-regeneration provider: either the URL is there, or the indexing raises
(`KeyError` / `IndexError` / `TypeError`). -/
inductive GetimgJson where
  | url (u : String)
  | malformed

/-- Behaviour of one HTTP POST of `call_getimg` for one model: either
`requests.post` raises, or it returns a status and a body whose JSON
decoding raises `ValueError` or yields the structure above. -/
inductive GetimgHttp where
  | exn
  | resp (status : Nat) (body : Except Unit GetimgJson)

/-- I/O events performed by the clients: client invocations (with their
arguments) and actual HTTP requests. -/
inductive Event where
  | segmindCall (prompt : String) (image_url : Option String)
  | segmindPost
  | getimgCall (prompt : String) (image_url : Option String)
  | getimgFetch
  | getimgPost (model : String)
deriving DecidableEq, Repr

/-- The cooldown guard of `call_segmind` (lines 51-56):
`if last_segmind_rate_limit_time:` (falsy for `None` and `0`) and then
`time.time() - last < SEGMIND_COOLDOWN_SECONDS`. -/
def segmindOnCooldown (st : GState) (now : Nat) : Bool :=
  match st.last_segmind_rate_limit_time with
  | none => false
  | some t0 => t0 != 0 && decide (now - t0 < SEGMIND_COOLDOWN_SECONDS)

/-- The cooldown guard of `call_getimg` (lines 127-132). -/
def getimgOnCooldown (st : GState) (now : Nat) : Bool :=
  match st.last_getimg_rate_limit_time with
  | none => false
  | some t0 => t0 != 0 && decide (now - t0 < GETIMG_COOLDOWN_SECONDS)

/-- Embedding of `call_segmind` from `utils/image_generator.py` (lines 46-120).
Returns the new global state, the Python return value (`None` or a URL),
and the trace of I/O events. -/
def call_segmind (st : GState) (now : Nat) (api_key : Option String)
    (prompt : String) (image_url : Option String) (http : SegmindHttp) :
    GState × Option String × List Event :=
  let st1 := { st with segmind_calls := st.segmind_calls + 1 }
  let ev0 : List Event := [Event.segmindCall prompt image_url]
  if segmindOnCooldown st now then
    (st1, none, ev0)
  else if ¬ truthyStr api_key then
    -- `if not api_key: return None` — no failure-counter update
    (st1, none, ev0)
  else
    match http with
    | .exn =>
      ({ st1 with segmind_failures := st1.segmind_failures + 1 }, none,
        ev0 ++ [Event.segmindPost])
    | .resp status ctJson body =>
      let ev := ev0 ++ [Event.segmindPost]
      if status = 200 then
        if ¬ ctJson then
          ({ st1 with segmind_failures := st1.segmind_failures + 1 }, none, ev)
        else
          match body with
          | .error _ =>
            ({ st1 with segmind_failures := st1.segmind_failures + 1 }, none, ev)
          | .ok OutputVal.null => (st1, none, ev)
          | .ok (OutputVal.str s) => (st1, some s, ev)
          | .ok (OutputVal.list []) =>
            -- `output[0]` raises IndexError, caught by the enclosing except
            ({ st1 with segmind_failures := st1.segmind_failures + 1 }, none, ev)
          | .ok (OutputVal.list (u :: _)) => (st1, some u, ev)
      else if status = 429 then
        ({ st1 with segmind_failures := st1.segmind_failures + 1,
                    last_segmind_rate_limit_time := some now }, none, ev)
      else if status = 401 then
        ({ st1 with segmind_failures := st1.segmind_failures + 1 }, none, ev)
      else
        ({ st1 with segmind_failures := st1.segmind_failures + 1 }, none, ev)

/-- The fixed model-fallback list of `call_getimg` (lines 146-150). -/
def fallback_models : List String :=
  ["realistic-vision-v5", "juggernaut-xl-v8", "dreamshaper-v7"]

/-- The `for model_name in fallback_models:` loop of `call_getimg`
(lines 152-194), including the trailing
`getimg_failures += 1` on list exhaustion.  A raised exception anywhere in
the loop is caught by the `except` of `call_getimg` (failure counted,
`None` returned). -/
def getimg_try_models (now : Nat) (http : String → GetimgHttp) :
    List String → GState → GState × Option String × List Event
  | [], st =>
    ({ st with getimg_failures := st.getimg_failures + 1 }, none, [])
  | model_name :: rest, st =>
    match http model_name with
    | .exn =>
      ({ st with getimg_failures := st.getimg_failures + 1 }, none,
        [Event.getimgPost model_name])
    | .resp status body =>
      if status = 200 then
        match body with
        | .error _ =>
          -- `response.json()` raised ValueError: count a failure, `continue`
          let r := getimg_try_models now http rest
            { st with getimg_failures := st.getimg_failures + 1 }
          (r.1, r.2.1, Event.getimgPost model_name :: r.2.2)
        | .ok (GetimgJson.url u) => (st, some u, [Event.getimgPost model_name])
        | .ok GetimgJson.malformed =>
          -- `data["data"][0]["url"]` raised, caught by the enclosing except
          ({ st with getimg_failures := st.getimg_failures + 1 }, none,
            [Event.getimgPost model_name])
      else if status = 429 then
        ({ st with getimg_failures := st.getimg_failures + 1,
                   last_getimg_rate_limit_time := some now }, none,
          [Event.getimgPost model_name])
      else
        -- any other status: log a warning and continue with the next model
        let r := getimg_try_models now http rest st
        (r.1, r.2.1, Event.getimgPost model_name :: r.2.2)

/-- Embedding of `call_getimg` from `utils/image_generator.py` (lines 123-200).
`fetch` models `requests.get(image_url)` followed by `raise_for_status()`:
`.error ()` when either raises (transport failure or non-success status). -/
def call_getimg (st : GState) (now : Nat) (api_key : Option String)
    (prompt : String) (image_url : Option String)
    (fetch : Except Unit Unit) (http : String → GetimgHttp) :
    GState × Option String × List Event :=
  let st1 := { st with getimg_calls := st.getimg_calls + 1 }
  let ev0 : List Event := [Event.getimgCall prompt image_url]
  if getimgOnCooldown st now then
    (st1, none, ev0)
  else
    match fetch with
    | .error _ =>
      ({ st1 with getimg_failures := st1.getimg_failures + 1 }, none,
        ev0 ++ [Event.getimgFetch])
    | .ok _ =>
      let r := getimg_try_models now http fallback_models st1
      (r.1, r.2.1, ev0 ++ [Event.getimgFetch] ++ r.2.2)

/-- The external collaborators of `generate_goal_image`: the source-image
fetch (`requests.get` + `raise_for_status`), the PIL decode-and-verify
check, the Cloudinary upload (which on success yields
`upload_result.get("secure_url")`), the configured API keys, and the HTTP
behaviour of the two providers. -/
structure OrchEnv where
  source_fetch : Except Unit Unit
  image_valid : Bool
  upload : Except Unit (Option String)
  segmind_api_key : Option String
  getimg_api_key : Option String
  segmind_http : SegmindHttp
  getimg_fetch : Except Unit Unit
  getimg_http : String → GetimgHttp

/-- Embedding of `generate_goal_image` from `utils/image_generator.py` (lines 203-246). -/
def generate_goal_image (st : GState) (now : Nat) (env : OrchEnv)
    (prompt : String) (gender : Option String)
    (current_weight desired_weight : PyWeight) :
    GState × Option String × List Event :=
  match env.source_fetch with
  | .error _ => (st, none, [])   -- RequestException: log and return None
  | .ok _ =>
    if env.image_valid then
      match env.upload with
      | .error _ => (st, none, [])   -- Cloudinary raised: log and return None
      | .ok uploaded_image_url =>
        let enhanced_prompt := build_prompt prompt gender current_weight desired_weight
        let s := call_segmind st now env.segmind_api_key enhanced_prompt
          uploaded_image_url env.segmind_http
        -- `if not face_enhanced_url: face_enhanced_url = uploaded_image_url`
        let face_enhanced_url := if truthyStr s.2.1 then s.2.1 else uploaded_image_url
        let g := call_getimg s.1 now env.getimg_api_key enhanced_prompt
          face_enhanced_url env.getimg_fetch env.getimg_http
        -- `if not final_result_url: final_result_url = face_enhanced_url`
        let final_result_url := if truthyStr g.2.1 then g.2.1 else face_enhanced_url
        (g.1, final_result_url, s.2.2 ++ g.2.2)
    else
      (st, none, [])   -- not a valid image: log and return None

/-- Substring containment, as infix of the character lists. -/
def ContainsStr (s pat : String) : Prop := pat.data <:+: s.data

instance (s pat : String) : Decidable (ContainsStr s pat) :=
  inferInstanceAs (Decidable (pat.data <:+: s.data))

/-- A per-model HTTP outcome on which the `call_getimg` loop proceeds to the
next model: a 200 whose JSON decoding raises, or any status other than 200
and 429. -/
def continuesOutcome : GetimgHttp → Prop
  | .exn => False
  | .resp status body =>
    (status = 200 ∧ ∃ e, body = Except.error e) ∨ (status ≠ 200 ∧ status ≠ 429)

/-- A `call_segmind` HTTP outcome that the source counts as a failure:
a transport exception, any non-200 status, a 200 with non-JSON
Content-Type, a 200 whose JSON decoding raises, or a 200 whose `"output"`
is an empty list (the indexing raises). -/
def segmindFailureOutcome : SegmindHttp → Prop
  | .exn => True
  | .resp status ctJson body =>
    status ≠ 200 ∨ ctJson = false ∨ (∃ e, body = Except.error e) ∨
      body = Except.ok (OutputVal.list [])

/-- Environment for concrete evaluations: validated source, upload yields
`"https://cdn/u.png"`, Segmind key missing, Getimg source fetch raises. -/
def envBothNil : OrchEnv :=
  { source_fetch := Except.ok ()
    image_valid := true
    upload := Except.ok (some "https://cdn/u.png")
    segmind_api_key := none
    getimg_api_key := some "gk"
    segmind_http := SegmindHttp.exn
    getimg_fetch := Except.error ()
    getimg_http := fun _ => GetimgHttp.exn }

/-- Environment for concrete evaluations: validated source, Segmind
rate-limited (429), Getimg fetch succeeds but every model POST returns a
500. -/
def envSeg429 : OrchEnv :=
  { source_fetch := Except.ok ()
    image_valid := true
    upload := Except.ok (some "https://cdn/u.png")
    segmind_api_key := some "sk"
    getimg_api_key := some "gk"
    segmind_http := SegmindHttp.resp 429 true (Except.ok OutputVal.null)
    getimg_fetch := Except.ok ()
    getimg_http := fun _ => GetimgHttp.resp 500 (Except.error ()) }

/-! Section: Helper lemmas -/

theorem pyAbs_eq_abs (q : ℚ) : pyAbs q = |q| := by
  unfold pyAbs
  rcases lt_or_le q 0 with h | h
  · rw [if_pos h, abs_of_neg h]
  · rw [if_neg (not_lt.mpr h), abs_of_nonneg h]

theorem containsStr_of_parts (s a b c : String) (h : s = a ++ b ++ c) :
    ContainsStr s b := by
  subst h
  exact ⟨a.data, c.data, by simp [String.data_append]⟩

theorem build_prompt_parts (base_prompt : String) (gender : Option String)
    (current_weight desired_weight : PyWeight) :
    build_prompt base_prompt gender current_weight desired_weight =
      (base_prompt ++ ", ") ++
        body_prompt_of (weight_diff current_weight desired_weight) ++
        (", " ++ gender_prompt_of gender ++
          ", photorealistic, preserve face, close resemblance to original photo") := by
  unfold build_prompt
  apply String.ext
  simp [String.data_append]

theorem body_prompt_of_cases (wd : ℚ) :
    body_prompt_of wd = "similar body type" ∨
    body_prompt_of wd = "slimmer, toned, healthy appearance" ∨
    body_prompt_of wd = "stronger, athletic build" := by
  unfold body_prompt_of
  split
  · exact Or.inl rfl
  split
  · exact Or.inr (Or.inl rfl)
  · exact Or.inr (Or.inr rfl)

theorem gender_prompt_of_cases (gender : Option String) :
    gender_prompt_of gender = "realistic human body appearance" ∨
    gender_prompt_of gender = "masculine features, realistic male fitness aesthetic" ∨
    gender_prompt_of gender = "feminine features, realistic female fitness aesthetic" := by
  unfold gender_prompt_of
  rcases gender with _ | g
  · exact Or.inl rfl
  simp only
  split
  · exact Or.inl rfl
  split
  · exact Or.inr (Or.inl rfl)
  split
  · exact Or.inr (Or.inr rfl)
  · exact Or.inl rfl

/-! Section: Claim C5 -/

/-- Claim C5: for numeric weights the composed prompt contains
"similar body type" when `|d| < 2`, "slimmer, toned, healthy appearance"
when `d ≤ -2`, and "stronger, athletic build" when `d ≥ 2`, where
`d = desired - current`; a non-numeric operand makes the delta `0`, and a
missing operand contributes `0` to the delta (both missing give delta `0`). -/
theorem C5_body_descriptor_phrases (base_prompt : String) (gender : Option String)
    (current_weight desired_weight : PyWeight) :
    (|weight_diff current_weight desired_weight| < 2 →
      ContainsStr (build_prompt base_prompt gender current_weight desired_weight)
        "similar body type") ∧
    (weight_diff current_weight desired_weight ≤ -2 →
      ContainsStr (build_prompt base_prompt gender current_weight desired_weight)
        "slimmer, toned, healthy appearance") ∧
    (2 ≤ weight_diff current_weight desired_weight →
      ContainsStr (build_prompt base_prompt gender current_weight desired_weight)
        "stronger, athletic build") ∧
    (∀ c d : ℚ, current_weight = PyWeight.num c → desired_weight = PyWeight.num d →
      weight_diff current_weight desired_weight = d - c) ∧
    ((current_weight = PyWeight.badstr ∨ desired_weight = PyWeight.badstr) →
      weight_diff current_weight desired_weight = 0) ∧
    (∀ d : ℚ, current_weight = PyWeight.none → desired_weight = PyWeight.num d →
      weight_diff current_weight desired_weight = d) ∧
    (∀ c : ℚ, current_weight = PyWeight.num c → desired_weight = PyWeight.none →
      weight_diff current_weight desired_weight = -c) ∧
    (current_weight = PyWeight.none → desired_weight = PyWeight.none →
      weight_diff current_weight desired_weight = 0) := by
  refine ⟨?_, ?_, ?_, ?_, ?_, ?_, ?_, ?_⟩
  · intro h
    rw [build_prompt_parts]
    unfold body_prompt_of
    rw [pyAbs_eq_abs, if_pos h]
    exact containsStr_of_parts _ _ _ _ rfl
  · intro h
    have hneg : weight_diff current_weight desired_weight < 0 := by linarith
    rw [build_prompt_parts]
    unfold body_prompt_of
    rw [pyAbs_eq_abs, if_neg (not_lt.mpr (by rw [abs_of_neg hneg]; linarith)), if_pos hneg]
    exact containsStr_of_parts _ _ _ _ rfl
  · intro h
    have hpos : (0:ℚ) ≤ weight_diff current_weight desired_weight := by linarith
    rw [build_prompt_parts]
    unfold body_prompt_of
    rw [pyAbs_eq_abs, if_neg (not_lt.mpr (by rw [abs_of_nonneg hpos]; linarith)),
      if_neg (not_lt.mpr hpos)]
    exact containsStr_of_parts _ _ _ _ rfl
  · intro c d hc hd
    rw [hc, hd]; rfl
  · rintro (h | h)
    · subst h; cases desired_weight <;> rfl
    · subst h; rfl
  · intro d hc hd
    rw [hc, hd]
    show d - 0 = d
    ring
  · intro c hc hd
    rw [hc, hd]
    show 0 - c = -c
    ring
  · intro hc hd
    rw [hc, hd]
    show (0:ℚ) - 0 = 0
    ring

/-- Witness for C5 at a concrete input: `current = 60`, `desired = 80`
gives delta `20 ≥ 2` and the prompt contains "stronger, athletic build". -/
theorem C5_body_descriptor_phrases_witness :
    2 ≤ weight_diff (PyWeight.num 60) (PyWeight.num 80) ∧
    ContainsStr (build_prompt "p" none (PyWeight.num 60) (PyWeight.num 80))
      "stronger, athletic build" := by
  have h2 : (2:ℚ) ≤ weight_diff (PyWeight.num 60) (PyWeight.num 80) := by
    show (2:ℚ) ≤ 80 - 60
    norm_num
  exact ⟨h2, (C5_body_descriptor_phrases "p" none (PyWeight.num 60) (PyWeight.num 80)).2.2.1 h2⟩

/-! Section: Claim C9 -/

set_option maxRecDepth 8192 in
/-- Counterexample for C9: the prompt composer of the source takes no
height argument at all; at a concrete request its output is exactly the
string below, which contains no height descriptor. -/
theorem C9_counterexample :
    build_prompt "p" none (PyWeight.num 60) (PyWeight.num 80) =
      "p, stronger, athletic build, realistic human body appearance, photorealistic, preserve face, close resemblance to original photo" ∧
    ¬ ContainsStr
      (build_prompt "p" none (PyWeight.num 60) (PyWeight.num 80)) "height" := by
  have h : build_prompt "p" none (PyWeight.num 60) (PyWeight.num 80) =
      "p, stronger, athletic build, realistic human body appearance, photorealistic, preserve face, close resemblance to original photo" := by
    unfold build_prompt body_prompt_of gender_prompt_of
    have hwd : weight_diff (PyWeight.num 60) (PyWeight.num 80) = (20:ℚ) := by
      show (80:ℚ) - 60 = 20; norm_num
    rw [hwd]
    rw [pyAbs_eq_abs]
    rw [if_neg (by rw [abs_of_nonneg (by norm_num : (0:ℚ) ≤ 20)]; norm_num),
      if_neg (by norm_num : ¬ (20:ℚ) < 0)]
    rfl
  exact ⟨h, by rw [h]; decide⟩

/-- Claim C9 as amended: the prompt composer takes no height argument; its
output is always the base prompt, a body descriptor, a gender descriptor
and the fixed realism suffix, and neither descriptor mentions a height. -/
theorem C9_no_height_descriptor (base_prompt : String) (gender : Option String)
    (current_weight desired_weight : PyWeight) :
    ∃ bp gp,
      build_prompt base_prompt gender current_weight desired_weight =
        (base_prompt ++ ", ") ++ bp ++
          (", " ++ gp ++ ", photorealistic, preserve face, close resemblance to original photo") ∧
      (bp = "similar body type" ∨ bp = "slimmer, toned, healthy appearance" ∨
        bp = "stronger, athletic build") ∧
      (gp = "realistic human body appearance" ∨
        gp = "masculine features, realistic male fitness aesthetic" ∨
        gp = "feminine features, realistic female fitness aesthetic") ∧
      ¬ ContainsStr bp "height" ∧ ¬ ContainsStr gp "height" := by
  refine ⟨body_prompt_of (weight_diff current_weight desired_weight),
    gender_prompt_of gender,
    build_prompt_parts base_prompt gender current_weight desired_weight,
    body_prompt_of_cases _, gender_prompt_of_cases _, ?_, ?_⟩
  · rcases body_prompt_of_cases (weight_diff current_weight desired_weight) with h | h | h <;>
      (rw [h]; decide)
  · rcases gender_prompt_of_cases gender with h | h | h <;> (rw [h]; decide)

/-- Witness for the amended C9 at a concrete input. -/
theorem C9_no_height_descriptor_witness :
    ∃ bp gp,
      build_prompt "p" (some "male") PyWeight.none PyWeight.none =
        ("p" ++ ", ") ++ bp ++
          (", " ++ gp ++ ", photorealistic, preserve face, close resemblance to original photo") ∧
      (bp = "similar body type" ∨ bp = "slimmer, toned, healthy appearance" ∨
        bp = "stronger, athletic build") ∧
      (gp = "realistic human body appearance" ∨
        gp = "masculine features, realistic male fitness aesthetic" ∨
        gp = "feminine features, realistic female fitness aesthetic") ∧
      ¬ ContainsStr bp "height" ∧ ¬ ContainsStr gp "height" :=
  C9_no_height_descriptor "p" (some "male") PyWeight.none PyWeight.none

/-! Section: Client lemmas: cooldown rejection -/

theorem call_segmind_on_cooldown (st : GState) (now : Nat) (api_key : Option String)
    (prompt : String) (image_url : Option String) (http : SegmindHttp)
    (h : segmindOnCooldown st now = true) :
    call_segmind st now api_key prompt image_url http =
      ({ st with segmind_calls := st.segmind_calls + 1 }, none,
        [Event.segmindCall prompt image_url]) := by
  simp [call_segmind, h]

theorem call_getimg_on_cooldown (st : GState) (now : Nat) (api_key : Option String)
    (prompt : String) (image_url : Option String)
    (fetch : Except Unit Unit) (http : String → GetimgHttp)
    (h : getimgOnCooldown st now = true) :
    call_getimg st now api_key prompt image_url fetch http =
      ({ st with getimg_calls := st.getimg_calls + 1 }, none,
        [Event.getimgCall prompt image_url]) := by
  simp [call_getimg, h]

theorem segmindOnCooldown_of_window (st : GState) (now t0 : Nat)
    (hs : st.last_segmind_rate_limit_time = some t0) (h0 : t0 ≠ 0)
    (hw : now - t0 < SEGMIND_COOLDOWN_SECONDS) :
    segmindOnCooldown st now = true := by
  simp only [segmindOnCooldown, hs, Bool.and_eq_true, bne_iff_ne, ne_eq,
    decide_eq_true_eq]
  exact ⟨h0, hw⟩

theorem getimgOnCooldown_of_window (st : GState) (now t1 : Nat)
    (hg : st.last_getimg_rate_limit_time = some t1) (h0 : t1 ≠ 0)
    (hw : now - t1 < GETIMG_COOLDOWN_SECONDS) :
    getimgOnCooldown st now = true := by
  simp only [getimgOnCooldown, hg, Bool.and_eq_true, bne_iff_ne, ne_eq,
    decide_eq_true_eq]
  exact ⟨h0, hw⟩

/-! Section: Claim C3 -/

/-- Claim C3: for each provider (windows 3600 s and 1800 s), an invocation
strictly less than one cooldown window after the last recorded 429 returns
nil without issuing any HTTP request: the trace holds only the invocation
marker, the state changes only by the call counter.  (The recorded
timestamps stem from the wall clock, hence the `≠ 0` hypotheses: Python
truthiness would skip the guard for a zero timestamp.) -/
theorem C3_cooldown_blocks_requests (st : GState) (now : Nat)
    (skey gkey : Option String) (prompt : String) (image_url : Option String)
    (shttp : SegmindHttp) (gfetch : Except Unit Unit) (ghttp : String → GetimgHttp)
    (t0 t1 : Nat)
    (hs : st.last_segmind_rate_limit_time = some t0) (hs0 : t0 ≠ 0)
    (hsw : now - t0 < SEGMIND_COOLDOWN_SECONDS)
    (hg : st.last_getimg_rate_limit_time = some t1) (hg0 : t1 ≠ 0)
    (hgw : now - t1 < GETIMG_COOLDOWN_SECONDS) :
    call_segmind st now skey prompt image_url shttp =
      ({ st with segmind_calls := st.segmind_calls + 1 }, none,
        [Event.segmindCall prompt image_url]) ∧
    call_getimg st now gkey prompt image_url gfetch ghttp =
      ({ st with getimg_calls := st.getimg_calls + 1 }, none,
        [Event.getimgCall prompt image_url]) :=
  ⟨call_segmind_on_cooldown _ _ _ _ _ _
      (segmindOnCooldown_of_window _ _ _ hs hs0 hsw),
    call_getimg_on_cooldown _ _ _ _ _ _ _
      (getimgOnCooldown_of_window _ _ _ hg hg0 hgw)⟩

/-- Witness for C3: both providers recorded a 429 at time 10, an invocation
at time 25 is rejected locally. -/
theorem C3_cooldown_blocks_requests_witness :
    call_segmind
        { last_segmind_rate_limit_time := some 10, last_getimg_rate_limit_time := some 10 }
        25 (some "sk") "p" (some "i") SegmindHttp.exn =
      ({ last_segmind_rate_limit_time := some 10, last_getimg_rate_limit_time := some 10,
         segmind_calls := 1 }, none, [Event.segmindCall "p" (some "i")]) ∧
    call_getimg
        { last_segmind_rate_limit_time := some 10, last_getimg_rate_limit_time := some 10 }
        25 (some "gk") "p" (some "i") (Except.ok ()) (fun _ => GetimgHttp.exn) =
      ({ last_segmind_rate_limit_time := some 10, last_getimg_rate_limit_time := some 10,
         getimg_calls := 1 }, none, [Event.getimgCall "p" (some "i")]) :=
  C3_cooldown_blocks_requests
    { last_segmind_rate_limit_time := some 10, last_getimg_rate_limit_time := some 10 }
    25 (some "sk") (some "gk") "p" (some "i") SegmindHttp.exn (Except.ok ())
    (fun _ => GetimgHttp.exn) 10 10 rfl (by decide) (by decide) rfl (by decide) (by decide)

/-! Section: Claim C8 -/

/-- Counterexample for C8: with an active cooldown (last 429 at 10, call at
11), the source still executes `segmind_calls += 1` (and `getimg_calls += 1`)
before the cooldown guard, so the call counter increments from 0 to 1. -/
theorem C8_counterexample :
    segmindOnCooldown { last_segmind_rate_limit_time := some 10 } 11 = true ∧
    (call_segmind { last_segmind_rate_limit_time := some 10 } 11 (some "k") "p"
      (some "i") SegmindHttp.exn).1.segmind_calls = 1 ∧
    getimgOnCooldown { last_getimg_rate_limit_time := some 10 } 11 = true ∧
    (call_getimg { last_getimg_rate_limit_time := some 10 } 11 (some "k") "p"
      (some "i") (Except.ok ()) (fun _ => GetimgHttp.exn)).1.getimg_calls = 1 := by
  refine ⟨by decide, ?_, by decide, ?_⟩ <;> decide

/-- Claim C8 as amended: during an active cooldown the invocation issues no
HTTP call, returns nil and leaves the failure counter unchanged, but the
call counter still increments by exactly one. -/
theorem C8_cooldown_counter_increments (st : GState) (now : Nat)
    (skey gkey : Option String) (prompt : String) (image_url : Option String)
    (shttp : SegmindHttp) (gfetch : Except Unit Unit) (ghttp : String → GetimgHttp)
    (hs : segmindOnCooldown st now = true) (hg : getimgOnCooldown st now = true) :
    call_segmind st now skey prompt image_url shttp =
      ({ st with segmind_calls := st.segmind_calls + 1 }, none,
        [Event.segmindCall prompt image_url]) ∧
    call_getimg st now gkey prompt image_url gfetch ghttp =
      ({ st with getimg_calls := st.getimg_calls + 1 }, none,
        [Event.getimgCall prompt image_url]) :=
  ⟨call_segmind_on_cooldown _ _ _ _ _ _ hs,
    call_getimg_on_cooldown _ _ _ _ _ _ _ hg⟩

/-- Witness for the amended C8 at a concrete cooldown state. -/
theorem C8_cooldown_counter_increments_witness :
    call_segmind { last_segmind_rate_limit_time := some 3, last_getimg_rate_limit_time := some 4 }
        5 none "q" none (SegmindHttp.resp 200 true (Except.ok (OutputVal.str "x"))) =
      ({ last_segmind_rate_limit_time := some 3, last_getimg_rate_limit_time := some 4,
         segmind_calls := 1 }, none, [Event.segmindCall "q" none]) ∧
    call_getimg { last_segmind_rate_limit_time := some 3, last_getimg_rate_limit_time := some 4 }
        5 none "q" none (Except.ok ())
        (fun _ => GetimgHttp.resp 200 (Except.ok (GetimgJson.url "y"))) =
      ({ last_segmind_rate_limit_time := some 3, last_getimg_rate_limit_time := some 4,
         getimg_calls := 1 }, none, [Event.getimgCall "q" none]) :=
  C8_cooldown_counter_increments
    { last_segmind_rate_limit_time := some 3, last_getimg_rate_limit_time := some 4 }
    5 none none "q" none (SegmindHttp.resp 200 true (Except.ok (OutputVal.str "x")))
    (Except.ok ()) (fun _ => GetimgHttp.resp 200 (Except.ok (GetimgJson.url "y")))
    (by decide) (by decide)

/-! Section: Claim C10 -/

/-- Claim C10: if the initial fetch of the input image fails (transport
exception or non-success status through `raise_for_status`), `call_getimg`
returns nil, issues no HTTP request to the regeneration provider (no
`getimgPost` event), and increments the failure counter exactly once. -/
theorem C10_input_fetch_failure (st : GState) (now : Nat) (api_key : Option String)
    (prompt : String) (image_url : Option String) (http : String → GetimgHttp)
    (hcool : getimgOnCooldown st now = false) :
    call_getimg st now api_key prompt image_url (Except.error ()) http =
      ({ st with getimg_calls := st.getimg_calls + 1,
                 getimg_failures := st.getimg_failures + 1 }, none,
        [Event.getimgCall prompt image_url, Event.getimgFetch]) := by
  simp [call_getimg, hcool]

/-- Witness for C10 at the initial state. -/
theorem C10_input_fetch_failure_witness :
    call_getimg {} 3 (some "gk") "p" (some "http://img") (Except.error ())
        (fun _ => GetimgHttp.resp 200 (Except.ok (GetimgJson.url "z"))) =
      ({ getimg_calls := 1, getimg_failures := 1 }, none,
        [Event.getimgCall "p" (some "http://img"), Event.getimgFetch]) :=
  C10_input_fetch_failure {} 3 (some "gk") "p" (some "http://img")
    (fun _ => GetimgHttp.resp 200 (Except.ok (GetimgJson.url "z"))) (by decide)

/-! Section: Claim C2 -/

theorem getimg_try_models_429 (now : Nat) (http : String → GetimgHttp)
    (m : String) (ms2 : List String) (b : Except Unit GetimgJson)
    (hm : http m = GetimgHttp.resp 429 b) :
    ∀ (ms1 : List String) (st : GState), (∀ x ∈ ms1, continuesOutcome (http x)) →
    ∃ st', getimg_try_models now http (ms1 ++ m :: ms2) st =
        (st', none, ms1.map Event.getimgPost ++ [Event.getimgPost m]) ∧
      st'.last_getimg_rate_limit_time = some now ∧
      st'.getimg_calls = st.getimg_calls ∧
      st.getimg_failures < st'.getimg_failures := by
  intro ms1
  induction ms1 with
  | nil =>
    intro st _
    refine ⟨{ st with getimg_failures := st.getimg_failures + 1, last_getimg_rate_limit_time := some now }, ?_, rfl, rfl, Nat.lt_succ_self _⟩
    simp [getimg_try_models, hm]
  | cons x xs ih =>
    intro st hc
    have hx := hc x (List.mem_cons_self x xs)
    rcases hhx : http x with _ | ⟨s, bx⟩
    · rw [hhx] at hx; exact absurd hx (by simp [continuesOutcome])
    · rw [hhx] at hx
      rcases hx with ⟨h200, e, hbe⟩ | ⟨hn200, hn429⟩
      · subst h200; subst hbe
        obtain ⟨st', heq, hlast, hcalls, hfail⟩ :=
          ih { st with getimg_failures := st.getimg_failures + 1 }
            (fun y hy => hc y (List.mem_cons_of_mem x hy))
        refine ⟨st', ?_, hlast, hcalls, Nat.lt_of_succ_lt hfail⟩
        rw [List.cons_append]
        simp only [getimg_try_models, hhx]
        rw [heq]
        simp
      · obtain ⟨st', heq, hlast, hcalls, hfail⟩ :=
          ih st (fun y hy => hc y (List.mem_cons_of_mem x hy))
        refine ⟨st', ?_, hlast, hcalls, hfail⟩
        rw [List.cons_append]
        simp only [getimg_try_models, hhx, if_neg hn200, if_neg hn429]
        rw [heq]
        simp

/-- Claim C2: if, during one `call_getimg` invocation, the HTTP call for
some model of the fixed ordered list answers 429 (all models before it
having ordinary, non-429 failures), then the rate-limit timestamp is set
to the current time, no HTTP call is issued for any later model, and the
invocation returns nil. -/
theorem C2_429_aborts_model_chain (st : GState) (now : Nat) (api_key : Option String)
    (prompt : String) (image_url : Option String) (http : String → GetimgHttp)
    (ms1 : List String) (m : String) (ms2 : List String) (b : Except Unit GetimgJson)
    (hlist : fallback_models = ms1 ++ m :: ms2)
    (hcool : getimgOnCooldown st now = false)
    (hcont : ∀ x ∈ ms1, continuesOutcome (http x))
    (hm : http m = GetimgHttp.resp 429 b) :
    ∃ st', call_getimg st now api_key prompt image_url (Except.ok ()) http =
        (st', none, [Event.getimgCall prompt image_url, Event.getimgFetch] ++
          ms1.map Event.getimgPost ++ [Event.getimgPost m]) ∧
      st'.last_getimg_rate_limit_time = some now := by
  obtain ⟨st', heq, hlast, _, _⟩ := getimg_try_models_429 now http m ms2 b hm ms1
    { st with getimg_calls := st.getimg_calls + 1 } hcont
  refine ⟨st', ?_, hlast⟩
  simp [call_getimg, hcool, hlist, heq]

/-- Witness for C2: the first model answers 429; only that one POST happens
and the timestamp is recorded. -/
theorem C2_429_aborts_model_chain_witness :
    ∃ st', call_getimg {} 7 (some "gk") "p" (some "i") (Except.ok ())
        (fun _ => GetimgHttp.resp 429 (Except.error ())) =
        (st', none, [Event.getimgCall "p" (some "i"), Event.getimgFetch] ++
          List.map Event.getimgPost [] ++ [Event.getimgPost "realistic-vision-v5"]) ∧
      st'.last_getimg_rate_limit_time = some 7 :=
  C2_429_aborts_model_chain {} 7 (some "gk") "p" (some "i")
    (fun _ => GetimgHttp.resp 429 (Except.error ()))
    [] "realistic-vision-v5" ["juggernaut-xl-v8", "dreamshaper-v7"] (Except.error ())
    rfl (by decide) (by intro x hx; cases hx) rfl

/-! Section: Claim C6 -/

theorem call_segmind_calls_increment (st : GState) (now : Nat) (api_key : Option String)
    (prompt : String) (image_url : Option String) (http : SegmindHttp) :
    (call_segmind st now api_key prompt image_url http).1.segmind_calls =
      st.segmind_calls + 1 := by
  rcases http with _ | ⟨s, ct, b⟩
  · simp only [call_segmind]; split_ifs <;> first | rfl | simp
  · rcases b with e | v
    · simp only [call_segmind]; split_ifs <;> first | rfl | simp
    · rcases v with _ | u | l
      · simp only [call_segmind]; split_ifs <;> first | rfl | simp
      · simp only [call_segmind]; split_ifs <;> first | rfl | simp
      · rcases l with _ | ⟨u, l⟩ <;> (simp only [call_segmind]; split_ifs <;> first | rfl | simp)

theorem getimg_try_models_calls (now : Nat) (http : String → GetimgHttp) :
    ∀ (ms : List String) (st : GState),
    (getimg_try_models now http ms st).1.getimg_calls = st.getimg_calls := by
  intro ms
  induction ms with
  | nil => intro st; rfl
  | cons x xs ih =>
    intro st
    rcases hhx : http x with _ | ⟨s, b⟩
    · simp [getimg_try_models, hhx]
    · by_cases h2 : s = 200
      · subst h2
        rcases b with e | v
        · simp [getimg_try_models, hhx, ih]
        · rcases v with u | _ <;> simp [getimg_try_models, hhx]
      · by_cases h4 : s = 429
        · subst h4; simp [getimg_try_models, hhx]
        · simp [getimg_try_models, hhx, h2, h4, ih]

theorem call_getimg_calls_increment (st : GState) (now : Nat) (api_key : Option String)
    (prompt : String) (image_url : Option String)
    (fetch : Except Unit Unit) (http : String → GetimgHttp) :
    (call_getimg st now api_key prompt image_url fetch http).1.getimg_calls =
      st.getimg_calls + 1 := by
  rcases h : getimgOnCooldown st now
  · rcases fetch with e | u
    · simp [call_getimg, h]
    · simp [call_getimg, h, getimg_try_models_calls]
  · simp [call_getimg, h]

theorem getimg_try_models_none_failures (now : Nat) (http : String → GetimgHttp) :
    ∀ (ms : List String) (st : GState),
    (getimg_try_models now http ms st).2.1 = none →
    st.getimg_failures < (getimg_try_models now http ms st).1.getimg_failures := by
  intro ms
  induction ms with
  | nil => intro st _; simp [getimg_try_models]
  | cons x xs ih =>
    intro st hnone
    rcases hhx : http x with _ | ⟨s, b⟩
    · simp [getimg_try_models, hhx]
    · by_cases h2 : s = 200
      · subst h2
        rcases b with e | v
        · rw [getimg_try_models] at hnone ⊢
          simp only [hhx] at hnone ⊢
          exact Nat.lt_of_succ_lt (ih _ hnone)
        · rcases v with u | _
          · rw [getimg_try_models] at hnone
            simp [hhx] at hnone
          · simp [getimg_try_models, hhx]
      · by_cases h4 : s = 429
        · subst h4; simp [getimg_try_models, hhx]
        · rw [getimg_try_models] at hnone ⊢
          simp only [hhx, if_neg h2, if_neg h4] at hnone ⊢
          exact ih _ hnone

/-- Counterexample for C6: an invocation of the face-enhancement client
with a missing API key returns nil (the invocation "does not return a
result URL" for the listed reason "missing credential") yet leaves the
failure counter unchanged at 0; only the call counter moves. -/
theorem C6_counterexample :
    (call_segmind {} 5 none "p" (some "img") SegmindHttp.exn).2.1 = none ∧
    (call_segmind {} 5 none "p" (some "img") SegmindHttp.exn).1.segmind_failures = 0 ∧
    (call_segmind {} 5 none "p" (some "img") SegmindHttp.exn).1.segmind_calls = 1 := by
  refine ⟨?_, ?_, ?_⟩ <;> decide

/-- Claim C6 as amended: every invocation of either client increments its
call counter by exactly one.  Every face-enhancement invocation that runs
its HTTP call (cooldown inactive, credential present) and gets a failure
outcome — 429, 401, any other non-200 status, a non-JSON Content-Type, an
unparseable body, an empty output list, or a transport exception —
increments the failure counter by one and returns nil; a missing
credential, however, returns nil without touching the failure counter.
Every body-regeneration invocation not rejected by the cooldown guard that
returns nil increments the failure counter. -/
theorem C6_counter_updates (st : GState) (now : Nat) (skey gkey : Option String)
    (prompt : String) (image_url : Option String) (shttp : SegmindHttp)
    (gfetch : Except Unit Unit) (ghttp : String → GetimgHttp) :
    (call_segmind st now skey prompt image_url shttp).1.segmind_calls =
      st.segmind_calls + 1 ∧
    (call_getimg st now gkey prompt image_url gfetch ghttp).1.getimg_calls =
      st.getimg_calls + 1 ∧
    (segmindOnCooldown st now = false → truthyStr skey = true →
      segmindFailureOutcome shttp →
      (call_segmind st now skey prompt image_url shttp).1.segmind_failures =
        st.segmind_failures + 1 ∧
      (call_segmind st now skey prompt image_url shttp).2.1 = none) ∧
    (segmindOnCooldown st now = false → truthyStr skey = false →
      (call_segmind st now skey prompt image_url shttp).1.segmind_failures =
        st.segmind_failures ∧
      (call_segmind st now skey prompt image_url shttp).2.1 = none) ∧
    (getimgOnCooldown st now = false →
      (call_getimg st now gkey prompt image_url gfetch ghttp).2.1 = none →
      st.getimg_failures <
        (call_getimg st now gkey prompt image_url gfetch ghttp).1.getimg_failures) := by
  refine ⟨call_segmind_calls_increment _ _ _ _ _ _,
    call_getimg_calls_increment _ _ _ _ _ _ _, ?_, ?_, ?_⟩
  · intro hcool hkey hout
    rcases shttp with _ | ⟨s, ct, b⟩
    · simp [call_segmind, hcool, hkey]
    · rcases hout with hs | hct | ⟨e, hbe⟩ | hbl
      · by_cases h4 : s = 429
        · subst h4; simp [call_segmind, hcool, hkey]
        · by_cases h1 : s = 401
          · subst h1; simp [call_segmind, hcool, hkey, hs]
          · simp [call_segmind, hcool, hkey, hs, h4, h1]
      · subst hct
        by_cases h2 : s = 200
        · subst h2; simp [call_segmind, hcool, hkey]
        · by_cases h4 : s = 429
          · subst h4; simp [call_segmind, hcool, hkey]
          · by_cases h1 : s = 401
            · subst h1; simp [call_segmind, hcool, hkey]
            · simp [call_segmind, hcool, hkey, h2, h4, h1]
      · subst hbe
        by_cases h2 : s = 200
        · subst h2
          rcases ct <;> simp [call_segmind, hcool, hkey]
        · by_cases h4 : s = 429
          · subst h4; simp [call_segmind, hcool, hkey]
          · by_cases h1 : s = 401
            · subst h1; simp [call_segmind, hcool, hkey]
            · simp [call_segmind, hcool, hkey, h2, h4, h1]
      · subst hbl
        by_cases h2 : s = 200
        · subst h2
          rcases ct <;> simp [call_segmind, hcool, hkey]
        · by_cases h4 : s = 429
          · subst h4; simp [call_segmind, hcool, hkey]
          · by_cases h1 : s = 401
            · subst h1; simp [call_segmind, hcool, hkey]
            · simp [call_segmind, hcool, hkey, h2, h4, h1]
  · intro hcool hkey
    rcases shttp with _ | ⟨s, ct, b⟩ <;> simp [call_segmind, hcool, hkey]
  · intro hcool hnone
    rcases gfetch with e | u
    · simp [call_getimg, hcool]
    · rw [call_getimg] at hnone ⊢
      simp only [hcool, Bool.false_eq_true, if_neg] at hnone ⊢
      simp only [if_false] at hnone ⊢
      exact getimg_try_models_none_failures now ghttp fallback_models _ hnone

/-- Witness for the amended C6: a 500 from the face-enhancement provider
and an input-fetch failure at the body-regeneration provider each bump the
failure counters; both call counters increment. -/
theorem C6_counter_updates_witness :
    (call_segmind {} 9 (some "sk") "p" (some "i")
      (SegmindHttp.resp 500 true (Except.ok OutputVal.null))).1.segmind_calls = 1 ∧
    (call_getimg {} 9 (some "gk") "p" (some "i") (Except.error ())
      (fun _ => GetimgHttp.exn)).1.getimg_calls = 1 ∧
    ((call_segmind {} 9 (some "sk") "p" (some "i")
        (SegmindHttp.resp 500 true (Except.ok OutputVal.null))).1.segmind_failures = 1 ∧
      (call_segmind {} 9 (some "sk") "p" (some "i")
        (SegmindHttp.resp 500 true (Except.ok OutputVal.null))).2.1 = none) ∧
    (0 < (call_getimg {} 9 (some "gk") "p" (some "i") (Except.error ())
        (fun _ => GetimgHttp.exn)).1.getimg_failures) := by
  have h := C6_counter_updates {} 9 (some "sk") (some "gk") "p" (some "i")
    (SegmindHttp.resp 500 true (Except.ok OutputVal.null)) (Except.error ())
    (fun _ => GetimgHttp.exn)
  exact ⟨h.1, h.2.1, h.2.2.1 (by decide) (by decide) (by simp [segmindFailureOutcome]),
    h.2.2.2.2 (by decide) (by decide)⟩

/-! Section: Claim C7 -/

/-- Claim C7: for every behaviour of the HTTP layer both clients terminate
with either a URL or nil (their embedded result type is `Option String`,
there is no escaping error path); in particular a transport exception on
the face-enhancement POST, on the body-regeneration input fetch, or on a
body-regeneration model POST is converted to a nil return (with the
failure counter bumped), never propagated. -/
theorem C7_exceptions_become_nil (st : GState) (now : Nat) (skey gkey : Option String)
    (prompt : String) (image_url : Option String) (shttp : SegmindHttp)
    (gfetch : Except Unit Unit) (ghttp : String → GetimgHttp) :
    ((call_segmind st now skey prompt image_url shttp).2.1 = none ∨
      ∃ u, (call_segmind st now skey prompt image_url shttp).2.1 = some u) ∧
    ((call_getimg st now gkey prompt image_url gfetch ghttp).2.1 = none ∨
      ∃ u, (call_getimg st now gkey prompt image_url gfetch ghttp).2.1 = some u) ∧
    (segmindOnCooldown st now = false → truthyStr skey = true →
      (call_segmind st now skey prompt image_url SegmindHttp.exn).2.1 = none ∧
      (call_segmind st now skey prompt image_url SegmindHttp.exn).1.segmind_failures =
        st.segmind_failures + 1) ∧
    (getimgOnCooldown st now = false →
      (call_getimg st now gkey prompt image_url (Except.error ()) ghttp).2.1 = none) ∧
    (getimgOnCooldown st now = false →
      (call_getimg st now gkey prompt image_url (Except.ok ())
        (fun _ => GetimgHttp.exn)).2.1 = none ∧
      (call_getimg st now gkey prompt image_url (Except.ok ())
        (fun _ => GetimgHttp.exn)).1.getimg_failures = st.getimg_failures + 1) := by
  refine ⟨Option.eq_none_or_eq_some _, Option.eq_none_or_eq_some _, ?_, ?_, ?_⟩
  · intro hcool hkey
    simp [call_segmind, hcool, hkey]
  · intro hcool
    simp [call_getimg, hcool]
  · intro hcool
    simp [call_getimg, hcool, fallback_models, getimg_try_models]

/-- Witness for C7 with every hypothesis discharged at a concrete state. -/
theorem C7_exceptions_become_nil_witness :
    ((call_segmind {} 2 (some "sk") "p" (some "i") SegmindHttp.exn).2.1 = none ∧
      (call_segmind {} 2 (some "sk") "p" (some "i") SegmindHttp.exn).1.segmind_failures = 1) ∧
    ((call_getimg {} 2 (some "gk") "p" (some "i") (Except.error ())
      (fun _ => GetimgHttp.exn)).2.1 = none) ∧
    ((call_getimg {} 2 (some "gk") "p" (some "i") (Except.ok ())
        (fun _ => GetimgHttp.exn)).2.1 = none ∧
      (call_getimg {} 2 (some "gk") "p" (some "i") (Except.ok ())
        (fun _ => GetimgHttp.exn)).1.getimg_failures = 1) := by
  have h := C7_exceptions_become_nil {} 2 (some "sk") (some "gk") "p" (some "i")
    SegmindHttp.exn (Except.error ()) (fun _ => GetimgHttp.exn)
  exact ⟨h.2.2.1 (by decide) (by decide), h.2.2.2.1 (by decide), h.2.2.2.2 (by decide)⟩

/-! Section: Orchestrator lemmas -/

theorem generate_goal_image_validated (st : GState) (now : Nat) (env : OrchEnv)
    (prompt : String) (gender : Option String) (cw dw : PyWeight) (uo : Option String)
    (hf : env.source_fetch = Except.ok ()) (hv : env.image_valid = true)
    (hu : env.upload = Except.ok uo) :
    generate_goal_image st now env prompt gender cw dw =
      (let p := build_prompt prompt gender cw dw
       let s := call_segmind st now env.segmind_api_key p uo env.segmind_http
       let face := if truthyStr s.2.1 then s.2.1 else uo
       let g := call_getimg s.1 now env.getimg_api_key p face env.getimg_fetch env.getimg_http
       (g.1, (if truthyStr g.2.1 then g.2.1 else face), s.2.2 ++ g.2.2)) := by
  rcases env with ⟨sf, iv, up, sk, gk, sh, gf, gh⟩
  simp only at hf hv hu
  subst hf
  subst hv
  subst hu
  rfl

theorem call_segmind_trace_head (st : GState) (now : Nat) (api_key : Option String)
    (prompt : String) (image_url : Option String) (http : SegmindHttp) :
    (call_segmind st now api_key prompt image_url http).2.2.head? =
      some (Event.segmindCall prompt image_url) := by
  rcases http with _ | ⟨s, ct, b⟩
  · simp only [call_segmind]; split_ifs <;> first | rfl | simp
  · rcases b with e | v
    · simp only [call_segmind]; split_ifs <;> first | rfl | simp
    · rcases v with _ | u | l
      · simp only [call_segmind]; split_ifs <;> first | rfl | simp
      · simp only [call_segmind]; split_ifs <;> first | rfl | simp
      · rcases l with _ | ⟨u, l⟩ <;>
          (simp only [call_segmind]; split_ifs <;> first | rfl | simp)

theorem call_getimg_trace_head (st : GState) (now : Nat) (api_key : Option String)
    (prompt : String) (image_url : Option String)
    (fetch : Except Unit Unit) (http : String → GetimgHttp) :
    (call_getimg st now api_key prompt image_url fetch http).2.2.head? =
      some (Event.getimgCall prompt image_url) := by
  rcases h : getimgOnCooldown st now
  · rcases fetch with e | u <;> simp [call_getimg, h]
  · simp [call_getimg, h]

theorem call_segmind_429_returns_none (st : GState) (now : Nat) (api_key : Option String)
    (prompt : String) (image_url : Option String) (ct : Bool)
    (b : Except Unit OutputVal) :
    (call_segmind st now api_key prompt image_url (SegmindHttp.resp 429 ct b)).2.1 =
      none := by
  rcases h1 : segmindOnCooldown st now
  · rcases h2 : truthyStr api_key
    · simp [call_segmind, h1, h2]
    · rcases b with e | v
      · simp [call_segmind, h1, h2]
      · rcases v with _ | u | l
        · simp [call_segmind, h1, h2]
        · simp [call_segmind, h1, h2]
        · rcases l with _ | ⟨u, l⟩ <;> simp [call_segmind, h1, h2]
  · simp [call_segmind, h1]

theorem truthyStr_some {o : Option String} (h : truthyStr o = true) :
    ∃ y, o = some y := by
  rcases o with _ | y
  · simp [truthyStr] at h
  · exact ⟨y, rfl⟩

theorem option_best_some (a b : Option String) (u : String) :
    ∃ v, (if truthyStr a then a else if truthyStr b then b else some u) = some v := by
  rcases ha : truthyStr a
  · rcases hb : truthyStr b
    · exact ⟨u, by simp⟩
    · obtain ⟨y, hy⟩ := truthyStr_some hb
      exact ⟨y, by simp [hy]⟩
  · obtain ⟨x, hx⟩ := truthyStr_some ha
    exact ⟨x, by simp [hx]⟩

/-! Section: Claim C1 -/

/-- Claim C1: once the source image is fetched, verified and uploaded (the
upload yielding a URL `u`), `generate_goal_image` returns a non-nil URL;
and if both provider calls return nil, the returned URL is exactly the
uploaded (normalized) source URL `u`. -/
theorem C1_no_hard_failure_after_upload (st : GState) (now : Nat) (env : OrchEnv)
    (prompt : String) (gender : Option String) (cw dw : PyWeight) (u : String)
    (hf : env.source_fetch = Except.ok ()) (hv : env.image_valid = true)
    (hu : env.upload = Except.ok (some u)) :
    (∃ v, (generate_goal_image st now env prompt gender cw dw).2.1 = some v) ∧
    ((call_segmind st now env.segmind_api_key (build_prompt prompt gender cw dw)
        (some u) env.segmind_http).2.1 = none →
      (call_getimg (call_segmind st now env.segmind_api_key
          (build_prompt prompt gender cw dw) (some u) env.segmind_http).1
        now env.getimg_api_key (build_prompt prompt gender cw dw) (some u)
        env.getimg_fetch env.getimg_http).2.1 = none →
      (generate_goal_image st now env prompt gender cw dw).2.1 = some u) := by
  have hmain := generate_goal_image_validated st now env prompt gender cw dw (some u) hf hv hu
  rw [hmain]
  simp only []
  constructor
  · exact option_best_some _ _ u
  · intro hseg hget
    rw [hseg]
    simp only [truthyStr, Bool.false_eq_true, if_false] at hget ⊢
    rw [hget]
    simp [truthyStr]

/-- Witness for C1: Segmind key missing and Getimg input fetch failing, so
both provider calls return nil; the orchestrator returns the uploaded URL. -/
theorem C1_no_hard_failure_after_upload_witness :
    (generate_goal_image {} 0 envBothNil "p" none PyWeight.none PyWeight.none).2.1 =
      some "https://cdn/u.png" :=
  (C1_no_hard_failure_after_upload {} 0 envBothNil "p" none PyWeight.none PyWeight.none
    "https://cdn/u.png" rfl rfl rfl).2 rfl rfl

/-! Section: Claim C4 -/

/-- Claim C4: after validation the face-enhancement client is invoked
before the body-regeneration client (the orchestration trace is the
segmind trace, headed by its invocation marker, followed by the getimg
trace, headed by its invocation marker), and the body-regeneration client
is invoked with the most recent best image: the segmind result when truthy,
otherwise the uploaded source URL; in particular a 429 from the
face-enhancement provider yields a nil segmind result, so body
regeneration still runs with the uploaded source URL as its input. -/
theorem C4_enhance_then_regenerate (st : GState) (now : Nat) (env : OrchEnv)
    (prompt : String) (gender : Option String) (cw dw : PyWeight) (uo : Option String)
    (hf : env.source_fetch = Except.ok ()) (hv : env.image_valid = true)
    (hu : env.upload = Except.ok uo) :
    (let p := build_prompt prompt gender cw dw
     let s := call_segmind st now env.segmind_api_key p uo env.segmind_http
     let face := if truthyStr s.2.1 then s.2.1 else uo
     let g := call_getimg s.1 now env.getimg_api_key p face env.getimg_fetch env.getimg_http
     (generate_goal_image st now env prompt gender cw dw).2.2 = s.2.2 ++ g.2.2 ∧
     s.2.2.head? = some (Event.segmindCall p uo) ∧
     g.2.2.head? = some (Event.getimgCall p face) ∧
     (s.2.1 = none → face = uo) ∧
     (∀ ct b, env.segmind_http = SegmindHttp.resp 429 ct b → s.2.1 = none)) := by
  simp only []
  refine ⟨?_, call_segmind_trace_head _ _ _ _ _ _,
    call_getimg_trace_head _ _ _ _ _ _ _, ?_, ?_⟩
  · rw [generate_goal_image_validated st now env prompt gender cw dw uo hf hv hu]
  · intro h
    rw [h]
    simp [truthyStr]
  · intro ct b hsh
    rw [hsh]
    exact call_segmind_429_returns_none st now env.segmind_api_key _ uo ct b

/-- Witness for C4: with the face-enhancement provider rate-limited (429),
the segmind result is nil and the orchestration trace is the segmind trace
followed by a getimg invocation taking the uploaded source URL as input. -/
theorem C4_enhance_then_regenerate_witness :
    (call_segmind {} 0 envSeg429.segmind_api_key
      (build_prompt "p" none PyWeight.none PyWeight.none) (some "https://cdn/u.png")
      envSeg429.segmind_http).2.1 = none ∧
    (generate_goal_image {} 0 envSeg429 "p" none PyWeight.none PyWeight.none).2.2 =
      (call_segmind {} 0 envSeg429.segmind_api_key
        (build_prompt "p" none PyWeight.none PyWeight.none) (some "https://cdn/u.png")
        envSeg429.segmind_http).2.2 ++
      (call_getimg (call_segmind {} 0 envSeg429.segmind_api_key
          (build_prompt "p" none PyWeight.none PyWeight.none) (some "https://cdn/u.png")
          envSeg429.segmind_http).1 0 envSeg429.getimg_api_key
        (build_prompt "p" none PyWeight.none PyWeight.none) (some "https://cdn/u.png")
        envSeg429.getimg_fetch envSeg429.getimg_http).2.2 := by
  have h := C4_enhance_then_regenerate {} 0 envSeg429 "p" none PyWeight.none PyWeight.none
    (some "https://cdn/u.png") rfl rfl rfl
  simp only [] at h
  have hseg := h.2.2.2.2 true (Except.ok OutputVal.null) rfl
  refine ⟨hseg, ?_⟩
  have h1 := h.1
  rw [hseg] at h1
  simpa [truthyStr] using h1

end ImageGenerator
